import Mathlib

/-!
Shallow embedding of the `runanywhere_agent` package (files `config.py`,
`auth.py`, `__main__.py`, `prompts/patch.py`) and proofs about the claims
of its specification.

Conventions of the embedding:
* Python strings are Lean `String`s; `str.strip()` / `str.lower()` are
  embedded as `pyStrip` / `pyLower` below (Python's default strip set,
  restricted to the ASCII whitespace characters).
* `os.environ.get(v)` is an `Option String` parameter (`none` = variable
  unset); Python truthiness of a string-or-None value is `pyTruthy`.
* Fallible library calls (`base64.b64decode`, `bytes.decode("utf-8")`)
  return `Option`; the embedded decoders below model the Python standard
  library routines the source calls.
* The filesystem cache file is an `Option String` (`none` = file absent);
  network interaction is an explicit `NetOutcome` parameter.
All definitions are total: an embedded function returning a value for every
input mirrors the source code catching every exception on that path.
-/

namespace RunanywhereAgent

/-- Python's default `str.strip()` whitespace set (ASCII part):
space, tab, newline, carriage return, vertical tab, form feed. -/
def pyIsSpace (c : Char) : Bool :=
  c = ' ' || c = '\t' || c = '\n' || c = '\r' || c = Char.ofNat 11 || c = Char.ofNat 12

/-- Python `str.strip()` on the character list: drop leading and trailing whitespace. -/
def stripList (l : List Char) : List Char :=
  ((l.dropWhile pyIsSpace).reverse.dropWhile pyIsSpace).reverse

/-- Embedding of Python `str.strip()`. -/
def pyStrip (s : String) : String :=
  ⟨stripList s.data⟩

/-- Embedding of Python `str.lower()` (ASCII case folding). -/
def pyLower (s : String) : String :=
  ⟨s.data.map Char.toLower⟩

/-- Embedding of Python `str.startswith`. -/
def pyStartsWith (s pre : String) : Bool :=
  pre.data.isPrefixOf s.data

/-- Python truthiness of an `os.environ.get` result: `None` and the empty
string are falsy, every other string is truthy. -/
def pyTruthy : Option String → Bool
  | none => false
  | some s => s ≠ ""

/-- Value of a character in the standard base64 alphabet. -/
def b64Val (c : Char) : Option Nat :=
  if 'A' ≤ c ∧ c ≤ 'Z' then some (c.toNat - 65)
  else if 'a' ≤ c ∧ c ≤ 'z' then some (c.toNat - 97 + 26)
  else if '0' ≤ c ∧ c ≤ '9' then some (c.toNat - 48 + 52)
  else if c = '+' then some 62
  else if c = '/' then some 63
  else none

/-- The character loop of `binascii.a2b_base64` in non-strict mode, the
routine `base64.b64decode` (default `validate=False`) calls. State follows
the C implementation: `quadPos` is the position within the current 6-bit
quad, `leftchar` the buffered leftover bits, `pads` the running pad count.
A `'='` at quad position 0 or 1 is ignored; a `'='` at position 2 or 3 that
brings `quadPos + pads` to 4 ends parsing successfully with the bytes
emitted so far; characters outside the alphabet are skipped; a data
character resets the pad count and advances the quad, emitting a byte at
positions 1, 2 and 3. A quad left unfinished at the end of input raises
`binascii.Error`, here `none`. -/
def b64Loop : List Char → Nat → Nat → Nat → Option (List Nat)
  | [], quadPos, _, _ => if quadPos ≠ 0 then none else some []
  | c :: rest, quadPos, leftchar, pads =>
    if c = '=' then
      if 2 ≤ quadPos ∧ 4 ≤ quadPos + (pads + 1) then some []
      else b64Loop rest quadPos leftchar (if 2 ≤ quadPos then pads + 1 else pads)
    else
      match b64Val c with
      | none => b64Loop rest quadPos leftchar pads
      | some v =>
        match quadPos with
        | 0 => b64Loop rest 1 v 0
        | 1 => (b64Loop rest 2 (v % 16) 0).map fun tl => (leftchar * 4 + v / 16) :: tl
        | 2 => (b64Loop rest 3 (v % 4) 0).map fun tl => (leftchar * 16 + v / 4) :: tl
        | _ => (b64Loop rest 0 0 0).map fun tl => (leftchar * 64 + v) :: tl

/-- Embedding of `base64.b64decode` on a `str` argument (default
`validate=False`): the argument is first encoded as ASCII — any character
above `0x7F` raises before decoding begins — and the bytes then go through
the `binascii.a2b_base64` loop. Returns `none` where the Python call
raises. -/
def pyB64Decode (s : String) : Option (List Nat) :=
  if s.data.any (fun c => 127 < c.toNat) then none
  else b64Loop s.data 0 0 0

/-- Embedding of `bytes.decode("utf-8")`: strict UTF-8 decoding with
continuation-byte, overlong, surrogate and range checks. Returns `none`
where the Python call raises `UnicodeDecodeError`. -/
def utf8Decode : List Nat → Option (List Char)
  | [] => some []
  | b :: rest =>
    if b < 0x80 then (utf8Decode rest).map (Char.ofNat b :: ·)
    else if b < 0xC2 then none
    else if b < 0xE0 then
      match rest with
      | b2 :: rest2 =>
        if 0x80 ≤ b2 ∧ b2 < 0xC0 then
          (utf8Decode rest2).map (Char.ofNat ((b - 0xC0) * 64 + (b2 - 0x80)) :: ·)
        else none
      | [] => none
    else if b < 0xF0 then
      match rest with
      | b2 :: b3 :: rest3 =>
        if (0x80 ≤ b2 ∧ b2 < 0xC0) ∧ (0x80 ≤ b3 ∧ b3 < 0xC0)
            ∧ (b = 0xE0 → 0xA0 ≤ b2) ∧ (b = 0xED → b2 < 0xA0) then
          (utf8Decode rest3).map
            (Char.ofNat ((b - 0xE0) * 4096 + (b2 - 0x80) * 64 + (b3 - 0x80)) :: ·)
        else none
      | _ => none
    else if b < 0xF5 then
      match rest with
      | b2 :: b3 :: b4 :: rest4 =>
        if (0x80 ≤ b2 ∧ b2 < 0xC0) ∧ (0x80 ≤ b3 ∧ b3 < 0xC0) ∧ (0x80 ≤ b4 ∧ b4 < 0xC0)
            ∧ (b = 0xF0 → 0x90 ≤ b2) ∧ (b = 0xF4 → b2 < 0x90) then
          (utf8Decode rest4).map
            (Char.ofNat ((b - 0xF0) * 262144 + (b2 - 0x80) * 4096
              + (b3 - 0x80) * 64 + (b4 - 0x80)) :: ·)
        else none
      | _ => none
    else none

/-! ## `config.py` -/

/-- The `_EMBEDDED_KEYS["anthropic"]` placeholder as shipped in the repository. -/
def anthropicEmbedded : String := "REPLACE_WITH_BASE64_ENCODED_ANTHROPIC_KEY"

/-- The `_EMBEDDED_KEYS["openai"]` placeholder as shipped in the repository. -/
def openaiEmbedded : String := "REPLACE_WITH_BASE64_ENCODED_OPENAI_KEY"

/-- Embedding of `config._decode_key`: `None` for an empty or
still-unconfigured (sentinel-prefixed) placeholder, otherwise base64-decode
and UTF-8-decode, with every decoding failure mapped to `None`. -/
def decode_key (encoded_key : String) : Option String :=
  if encoded_key = "" || pyStartsWith encoded_key "REPLACE_WITH" then none
  else
    match pyB64Decode encoded_key with
    | none => none
    | some bytes =>
      match utf8Decode bytes with
      | none => none
      | some cs => some ⟨cs⟩

/-- Common body of `config.get_anthropic_key` / `config.get_openai_key`:
`env_key = os.environ.get(VAR); if env_key: return env_key;
return _decode_key(embedded)`. The embedded placeholder is a parameter so
that the two providers share the body, exactly as the source duplicates it. -/
def resolveKey (envVal : Option String) (embedded : String) : Option String :=
  if pyTruthy envVal then envVal else decode_key embedded

/-- Embedding of `config.get_anthropic_key`, with the `ANTHROPIC_API_KEY`
environment variable and the embedded placeholder made explicit. -/
def get_anthropic_key (envVal : Option String) (embedded : String) : Option String :=
  resolveKey envVal embedded

/-- Embedding of `config.get_openai_key`, with the `OPENAI_API_KEY`
environment variable and the embedded placeholder made explicit. -/
def get_openai_key (envVal : Option String) (embedded : String) : Option String :=
  resolveKey envVal embedded

/-- The two provider environment variables
(`ANTHROPIC_API_KEY`, `OPENAI_API_KEY`); `none` = unset. -/
structure KeyEnv where
  anthropic : Option String
  openai : Option String
  deriving Repr, DecidableEq

/-- The status dictionary returned by `config.inject_api_keys`. -/
structure InjectStatus where
  anthropic_injected : Bool
  openai_injected : Bool
  anthropic_available : Bool
  openai_available : Bool
  deriving Repr, DecidableEq

/-- One provider's block inside `config.inject_api_keys`: if the
environment variable is falsy (unset or empty) and the embedded placeholder
decodes, the decoded key is written into the environment and the provider
recorded as injected and available; a truthy variable is recorded as
available only. Returns (new variable value, injected, available). -/
def injectOne (envVal : Option String) (emb : String) : Option String × Bool × Bool :=
  if !pyTruthy envVal then
    match decode_key emb with
    | some k => (some k, true, true)
    | none => (envVal, false, false)
  else (envVal, false, true)

/-- Embedding of `config.inject_api_keys`: the per-provider block run for
anthropic then openai, returning the updated environment together with the
status record. -/
def inject_api_keys (env : KeyEnv) (embA embO : String) : KeyEnv × InjectStatus :=
  let a := injectOne env.anthropic embA
  let o := injectOne env.openai embO
  (⟨a.1, o.1⟩,
   { anthropic_injected := a.2.1, openai_injected := o.2.1,
     anthropic_available := a.2.2, openai_available := o.2.2 })

/-- Embedding of `config.check_api_keys`:
`bool(get_anthropic_key() or get_openai_key())`. -/
def check_api_keys (env : KeyEnv) (embA embO : String) : Bool :=
  pyTruthy (get_anthropic_key env.anthropic embA)
    || pyTruthy (get_openai_key env.openai embO)

/-! ## `auth.py` -/

/-- Body of a received allow-list response, as seen through
`response.json()`. -/
inductive RespBody where
  /-- The body is a valid JSON array of `n` user records. -/
  | jsonArr (n : Nat)
  /-- The body is not valid JSON: `response.json()` raises
  `requests.exceptions.JSONDecodeError` (a `RequestException`) with the
  given message. -/
  | malformed (msg : String)
  deriving Repr, DecidableEq

/-- Outcome of the single HTTP GET issued by `auth.verify_email`
(`requests.get(...)`), as observed by the caller. -/
inductive NetOutcome where
  /-- A `requests.exceptions.Timeout` was raised. -/
  | timeout
  /-- A `requests.exceptions.ConnectionError` was raised. -/
  | connError
  /-- Another `requests.exceptions.RequestException` raised during the
  request, carrying its message. -/
  | reqError (msg : String)
  /-- A response arrived with the given status code and body. -/
  | resp (status : Nat) (body : RespBody)
  deriving Repr, DecidableEq

/-- What a call to `auth.verify_email` returned, printed and sent.
`queried = none` means no network request was issued; `queried = some e`
means one GET was issued filtering for the exact email `e`.
Totality of the embedded function over all of `NetOutcome` mirrors the
source catching every listed exception: no outcome propagates a fault. -/
structure VerifyOut where
  result : Bool
  messages : List String
  queried : Option String
  deriving Repr, DecidableEq

/-- Embedding of `auth.verify_email`. `devMode` is
`os.environ.get("RUNANYWHERE_DEV_MODE")`; `net` the outcome of the single
HTTP GET, had one been issued. Mirrors the source order: blank-email check,
dev-mode short-circuit, then the request with its handlers. -/
def verify_email (devMode : Option String) (net : NetOutcome) (email : String) :
    VerifyOut :=
  if pyStrip email = "" then
    { result := false, messages := [], queried := none }
  else
    let e := pyLower (pyStrip email)
    if devMode = some "1" then
      { result := true, messages := ["[DEV MODE] Skipping email verification"],
        queried := none }
    else
      match net with
      | .resp status body =>
          if status = 200 then
            match body with
            | .jsonArr n =>
                { result := decide (0 < n), messages := [], queried := some e }
            | .malformed m =>
                { result := false,
                  messages := ["Warning: Authentication error: " ++ m],
                  queried := some e }
          else
            { result := false,
              messages := ["Warning: Auth check failed with status " ++ toString status],
              queried := some e }
      | .timeout =>
          { result := false,
            messages := ["Warning: Authentication server timeout. Please try again."],
            queried := some e }
      | .connError =>
          { result := false,
            messages := ["Warning: Could not connect to authentication server.",
                         "Please check your internet connection."],
            queried := some e }
      | .reqError m =>
          { result := false,
            messages := ["Warning: Authentication error: " ++ m],
            queried := some e }

/-- Embedding of `auth.get_cached_email`: read the cache file if it exists
and strip the content (`fs = none` models an absent file; I/O errors, which
the source swallows into `None`, are not modelled). -/
def get_cached_email (fs : Option String) : Option String :=
  fs.map pyStrip

/-- Embedding of `auth.save_email_to_cache`: overwrite the cache file with
the email (the ideal filesystem; a write error only warns in the source). -/
def save_email_to_cache (email : String) (_fs : Option String) : Option String :=
  some email

/-- Embedding of `auth.clear_auth_cache`: unlink the cache file if it
exists. -/
def clear_auth_cache (fs : Option String) : Option String :=
  if fs.isSome then none else fs

/-- Embedding of `auth.logout` (its only state effect is
`clear_auth_cache`). -/
def logout (fs : Option String) : Option String :=
  clear_auth_cache fs

/-- The email-entry loop at the end of `auth.prompt_for_email`: strip each
line, reject blank lines and lines without both `@` and `.`, return the
first accepted line. `none` models the loop still waiting for input after
the supplied lines are exhausted. -/
def emailLoop : List String → Option String
  | [] => none
  | i :: rest =>
    let e := pyStrip i
    if e = "" then emailLoop rest
    else if ¬ (e.data.contains '@') ∨ ¬ (e.data.contains '.') then emailLoop rest
    else some e

/-- The inputs `auth.prompt_for_email` and `auth.verify_email` consume:
cache file content, the reply to the cached-email confirmation prompt, the
`RUNANYWHERE_EMAIL` and `RUNANYWHERE_DEV_MODE` environment variables, the
lines typed at the email prompt, and the network outcome. -/
structure AuthWorld where
  cache : Option String
  confirmInput : String
  envEmail : Option String
  inputs : List String
  devMode : Option String
  net : NetOutcome
  deriving Repr, DecidableEq

/-- The part of `auth.prompt_for_email` after the cached-email offer:
a truthy `RUNANYWHERE_EMAIL` is stripped and returned, else the entry
loop runs. -/
def promptAfterCache (w : AuthWorld) : Option String :=
  match w.envEmail with
  | some e => if e ≠ "" then some (pyStrip e) else emailLoop w.inputs
  | none => emailLoop w.inputs

/-- Embedding of `auth.prompt_for_email`: offer a truthy cached email
(accepted on any confirmation reply whose stripped, lowered form is not
`"new"`), else fall through to the environment variable and the entry
loop. -/
def prompt_for_email (w : AuthWorld) : Option String :=
  match get_cached_email w.cache with
  | some c =>
    if c ≠ "" then
      if pyLower (pyStrip w.confirmInput) ≠ "new" then some c
      else promptAfterCache w
    else promptAfterCache w
  | none => promptAfterCache w

/-- Result of `auth.authenticate`: the verified email, or the
`sys.exit(1)` denial path. -/
inductive AuthResult where
  | granted (email : String)
  | deniedExit
  deriving Repr, DecidableEq

/-- Embedding of `auth.authenticate`: obtain an email via
`prompt_for_email`, verify it; on success save that email (as returned by
the prompt, unmodified) to the cache and return it, on failure clear the
cache and exit 1. The outer `none` models `prompt_for_email` never
returning (inputs exhausted). Returns the result together with the new
cache file state. -/
def authenticate (w : AuthWorld) : Option (AuthResult × Option String) :=
  (prompt_for_email w).map fun email =>
    if (verify_email w.devMode w.net email).result then
      (.granted email, save_email_to_cache email w.cache)
    else
      (.deniedExit, clear_auth_cache w.cache)

/-! ## `__main__.py` (credential step of `main`) -/

/-- Where `main` stands after the credential step (its step 2):
either `sys.exit(1)` with the printed error block, or continuing towards
the prompt patches, the model choice and the host's entry point with the
updated environment and the injection status. -/
inductive MainStep where
  | exitCode (code : Nat) (msgs : List String)
  | continueToHost (env : KeyEnv) (status : InjectStatus)
  deriving Repr, DecidableEq

/-- The error block `main` prints when no API key is available, verbatim
from the source (the `"=" * 60` rules abbreviated to their content). -/
def noKeysMsgs : List String :=
  ["  Error: No API Keys Available",
   "No API keys are configured. Please set one of:",
   "  - ANTHROPIC_API_KEY (for Claude models)",
   "  - OPENAI_API_KEY (for GPT models)",
   "Or contact founders@runanywhere.ai for embedded key access."]

/-- Embedding of step 2 of `__main__.main`: `inject_api_keys()` then
`check_api_keys()`; on a false check, print the error block and
`sys.exit(1)`, never reaching the host; otherwise continue. -/
def mainKeysStep (env : KeyEnv) (embA embO : String) : MainStep :=
  let r := inject_api_keys env embA embO
  if check_api_keys r.1 embA embO then .continueToHost r.1 r.2
  else .exitCode 1 noKeysMsgs

/-! ## `prompts/patch.py` -/

/-- The mutable prompt state of the host tool (aider) that
`prompts/patch.py` touches. Each `Option` field is a class attribute;
`none` models the attribute (or, for `helpMain` and `commitSystem`, the
class or module holding it) being absent, so that reading or importing it
raises. `editblockExamples` is `EditBlockPrompts.example_messages`
(`none` = `hasattr` false). -/
structure Host where
  editblockMain : Option String
  wholefileMain : Option String
  fencedMain : Option String
  udiffMain : Option String
  helpMain : Option String
  helpRepoContent : Option String
  commitSystem : Option String
  editblockExamples : Option (List (String × String))
  deriving Repr, DecidableEq

/-- The warning `patch_aider_prompts` prints from its outer
`except Exception` handler (the exception text itself is a Python runtime
detail and is abbreviated). -/
def patchErrMsg : String := "Warning: Error patching prompts: "

/-- Embedding of `patch.patch_aider_prompts`, parameterised by the
assembled `runanywhere_` instruction block `pfx` (built in the source from
`get_sdk_documentation()`, a filesystem read) and the example list `exs`
(`RUNANYWHERE_EXAMPLE_MESSAGES`). Order and error scope follow the source:
the edit-block and whole-file patches run bare inside the outer `try`, so a
failure there abandons the rest of this function (mutations already made
persist); the fenced, unified-diff and example patches each sit in their own
inner `try/except` and are skipped individually. Returns the new host state
and the printed lines. -/
def patch_aider_prompts (pfx : String) (exs : List (String × String)) (h : Host) :
    Host × List String :=
  match h.editblockMain with
  | none => (h, [patchErrMsg])
  | some eb =>
    let h1 : Host := { h with editblockMain := some (pfx ++ eb) }
    match h1.wholefileMain with
    | none => (h1, [patchErrMsg])
    | some wf =>
      let h2 : Host := { h1 with wholefileMain := some (pfx ++ wf) }
      let h3 : Host :=
        match h2.fencedMain with
        | some f => { h2 with fencedMain := some (pfx ++ f) }
        | none => h2
      let h4 : Host :=
        match h3.udiffMain with
        | some u => { h3 with udiffMain := some (pfx ++ u) }
        | none => h3
      let h5 : Host :=
        match h4.editblockExamples with
        | some ex => { h4 with editblockExamples := some (ex ++ exs) }
        | none => h4
      (h5, ["✓ RunAnywhere SDK prompts loaded"])

/-- The replacement `HelpPrompts.main_system` text installed by
`patch.patch_help_system` (contents abbreviated to its opening line; the
claims depend only on the slot being overwritten with this fixed text). -/
def helpSystemText : String :=
  "You are an expert on building mobile apps with RunAnywhere SDKs."

/-- The replacement `HelpPrompts.repo_content_prefix` text installed by
`patch.patch_help_system` (likewise abbreviated). -/
def helpRepoContentText : String :=
  "Here are summaries of some files in the project."

/-- Embedding of `patch.patch_help_system`: assign the two `HelpPrompts`
attributes. Assignment cannot fail when the class is importable, so the
only failure path is the import (`helpMain = none`), which warns and leaves
the host unchanged. -/
def patch_help_system (h : Host) : Host × List String :=
  match h.helpMain with
  | none => (h, ["Warning: Could not patch help system: "])
  | some _ =>
    ({ h with helpMain := some helpSystemText,
              helpRepoContent := some helpRepoContentText },
     ["✓ RunAnywhere help system loaded"])

/-- The RunAnywhere conventions block `patch.patch_commit_prompts` appends
to `prompts.commit_system` (abbreviated to its opening line). -/
def commitSuffixText : String :=
  "When the changes involve RunAnywhere SDK code, use appropriate prefixes:"

/-- Embedding of `patch.patch_commit_prompts`: append the conventions block
to the commit template; any failure (import or attribute access) is
swallowed silently. -/
def patch_commit_prompts (h : Host) : Host × List String :=
  match h.commitSystem with
  | none => (h, [])
  | some c => ({ h with commitSystem := some (c ++ commitSuffixText) }, [])

/-- Embedding of `patch.apply_all_patches`: the three patch functions in
sequence, accumulating printed lines. Totality over every host shape
mirrors all three catching (or not provoking) every exception. -/
def apply_all_patches (pfx : String) (exs : List (String × String)) (h : Host) :
    Host × List String :=
  let r1 := patch_aider_prompts pfx exs h
  let r2 := patch_help_system r1.1
  let r3 := patch_commit_prompts r2.1
  (r3.1, r1.2 ++ r2.2 ++ r3.2)

/-! ## Helper lemmas about stripping -/

/-- A list whose head does not satisfy `p` is unchanged by `dropWhile p`. -/
theorem dropWhile_eq_self_of_head {α : Type} {p : α → Bool} :
    ∀ (l : List α), (∀ w : l ≠ [], ¬ p (l.head w) = true) → l.dropWhile p = l
  | [], _ => rfl
  | a :: t, h => List.dropWhile_cons_of_neg (h (by simp))

/-- The function `List.dropWhile` is idempotent. -/
theorem dropWhile_idem {α : Type} {p : α → Bool} (l : List α) :
    (l.dropWhile p).dropWhile p = l.dropWhile p :=
  dropWhile_eq_self_of_head _ (fun w => by simp [List.head_dropWhile_not p l w])

/-- If `dropWhile p` fixes a nonempty list, its head does not satisfy `p`. -/
theorem not_head_of_dropWhile_eq_self {α : Type} {p : α → Bool} {a : α} {t : List α}
    (h : (a :: t).dropWhile p = a :: t) : ¬ p a = true := by
  intro hp
  rw [List.dropWhile_cons_of_pos hp] at h
  have hle := (List.dropWhile_sublist (l := t) p).length_le
  rw [h] at hle
  simp at hle

/-- If `dropWhile p` fixes a list, it fixes each of its prefixes. -/
theorem dropWhile_eq_self_of_append {α : Type} {p : α → Bool} {s r m : List α}
    (hm : s ++ r = m) (h : m.dropWhile p = m) : s.dropWhile p = s := by
  cases s with
  | nil => rfl
  | cons a s' =>
    subst hm
    exact List.dropWhile_cons_of_neg (not_head_of_dropWhile_eq_self h)

/-- Stripping with `stripList` is idempotent. -/
theorem stripList_idem (l : List Char) : stripList (stripList l) = stripList l := by
  unfold stripList
  set m := l.dropWhile pyIsSpace with hm
  set u := m.reverse.dropWhile pyIsSpace with hu
  -- the stripped list is a prefix of `m`
  obtain ⟨t, ht⟩ : u <:+ m.reverse := List.dropWhile_suffix pyIsSpace
  have hpre : u.reverse ++ t.reverse = m := by
    rw [← List.reverse_append, ht, List.reverse_reverse]
  have hmfix : m.dropWhile pyIsSpace = m := dropWhile_idem l
  have h1 : u.reverse.dropWhile pyIsSpace = u.reverse :=
    dropWhile_eq_self_of_append hpre hmfix
  have h2 : u.dropWhile pyIsSpace = u := by
    rw [hu]; exact dropWhile_idem m.reverse
  rw [h1, List.reverse_reverse, h2]

/-- Stripping with `pyStrip` is idempotent. -/
theorem pyStrip_idem (s : String) : pyStrip (pyStrip s) = pyStrip s := by
  show (⟨stripList (stripList s.data)⟩ : String) = ⟨stripList s.data⟩
  rw [stripList_idem]

/-- Python truthiness of an optional string, spelled out. -/
theorem pyTruthy_iff (o : Option String) :
    pyTruthy o = true ↔ ∃ k, o = some k ∧ k ≠ "" := by
  cases o with
  | none => simp [pyTruthy]
  | some s => simp [pyTruthy]

/-- Two strings with different beginnings differ, whatever is appended. -/
theorem string_ne_of_take (s₁ s₂ : String) (n : Nat)
    (h : s₁.data.take n ≠ s₂.data.take n) : s₁ ≠ s₂ :=
  fun he => h (congrArg (fun s => (String.data s).take n) he)

/-- The first `l₁.length` characters of `l₁ ++ l₂` are `l₁`, string form. -/
theorem data_take_append (A x : String) (n : Nat) (h : A.data.length = n) :
    (A ++ x).data.take n = A.data := by
  rw [String.data_append]
  exact List.take_left' h

/-! ## C9: logout deletes the cache unconditionally and is idempotent -/

/-- C9: `logout()` removes the cached identity file for every prior state
of the cache, it succeeds (returns) when the file is already absent, and a
second `logout()` changes nothing: `logout ∘ logout = logout`. -/
theorem logout_deletes_and_idempotent (fs : Option String) :
    logout fs = none ∧ logout none = none ∧ logout (logout fs) = logout fs := by
  cases fs <;> simp [logout, clear_auth_cache]

/-! ## C6: a set override environment variable wins -/

/-- C6 counterexample: the override environment variable set to the empty
string is set, yet `get_anthropic_key` does not return it unchanged — with
the repository's embedded placeholder it returns `none` instead of the
variable's value `""`. The source guards with Python truthiness
(`if env_key:`), which treats a set-but-empty variable as absent. -/
theorem c6_counterexample :
    get_anthropic_key (some "") anthropicEmbedded = none
      ∧ (none : Option String) ≠ some "" := by
  constructor
  · rfl
  · simp

/-- C6 (amended): for each provider, if the override environment variable
is set to a non-empty value, the resolver returns it unchanged, regardless
of the embedded fallback value. -/
theorem env_override_wins (v : String) (embA embO : String) (h : v ≠ "") :
    get_anthropic_key (some v) embA = some v
      ∧ get_openai_key (some v) embO = some v := by
  constructor <;> simp [get_anthropic_key, get_openai_key, resolveKey, pyTruthy, h]

/-- Witness for `env_override_wins` at a concrete key and the repository's
embedded placeholders. -/
theorem env_override_wins_witness :
    ("sk-test" : String) ≠ ""
      ∧ get_anthropic_key (some "sk-test") anthropicEmbedded = some "sk-test"
      ∧ get_openai_key (some "sk-test") openaiEmbedded = some "sk-test" := by
  refine ⟨by decide, ?_⟩
  exact env_override_wins "sk-test" anthropicEmbedded openaiEmbedded (by decide)

/-! ## C7: unconfigured or undecodable placeholders resolve to absent -/

/-- C7: with the override environment variable unset, a placeholder that is
empty, still carries the `REPLACE_WITH` sentinel, or fails base64 or UTF-8
decoding, resolves to absent (`None`) for both providers. -/
theorem unconfigured_resolves_absent (encoded : String)
    (h : encoded = "" ∨ pyStartsWith encoded "REPLACE_WITH" = true
      ∨ pyB64Decode encoded = none
      ∨ ∃ bytes, pyB64Decode encoded = some bytes ∧ utf8Decode bytes = none) :
    decode_key encoded = none
      ∧ get_anthropic_key none encoded = none
      ∧ get_openai_key none encoded = none := by
  have hd : decode_key encoded = none := by
    unfold decode_key
    rcases h with h | h | h | ⟨bytes, h1, h2⟩
    · simp [h]
    · simp [h]
    · split
      · rfl
      · simp [h]
    · split
      · rfl
      · simp [h1, h2]
  refine ⟨hd, ?_, ?_⟩ <;>
    simp [get_anthropic_key, get_openai_key, resolveKey, pyTruthy, hd]

/-- Witness for `unconfigured_resolves_absent` at the repository's shipped
anthropic placeholder, which still carries the sentinel. -/
theorem unconfigured_resolves_absent_witness :
    (anthropicEmbedded = "" ∨ pyStartsWith anthropicEmbedded "REPLACE_WITH" = true
      ∨ pyB64Decode anthropicEmbedded = none
      ∨ ∃ bytes, pyB64Decode anthropicEmbedded = some bytes ∧ utf8Decode bytes = none)
      ∧ decode_key anthropicEmbedded = none
      ∧ get_anthropic_key none anthropicEmbedded = none := by
  have h : pyStartsWith anthropicEmbedded "REPLACE_WITH" = true := by decide
  have := unconfigured_resolves_absent anthropicEmbedded (Or.inr (Or.inl h))
  exact ⟨Or.inr (Or.inl h), this.1, this.2.1⟩

/-! ## C3: no usable credential is fatal before the host runs -/

/-- C3: `check_api_keys` is true iff at least one of the two providers
resolves to a non-empty secret; and whenever the check performed by `main`
after key injection is false, the credential step ends in `sys.exit(1)`
printing the error block that names `ANTHROPIC_API_KEY` and
`OPENAI_API_KEY`, never reaching the host's entry point. -/
theorem check_api_keys_fatal (env : KeyEnv) (embA embO : String) :
    (check_api_keys env embA embO = true ↔
      (∃ k, get_anthropic_key env.anthropic embA = some k ∧ k ≠ "")
        ∨ (∃ k, get_openai_key env.openai embO = some k ∧ k ≠ ""))
    ∧ (check_api_keys (inject_api_keys env embA embO).1 embA embO = false →
        mainKeysStep env embA embO = .exitCode 1 noKeysMsgs)
    ∧ "  - ANTHROPIC_API_KEY (for Claude models)" ∈ noKeysMsgs
    ∧ "  - OPENAI_API_KEY (for GPT models)" ∈ noKeysMsgs
    ∧ ∀ e st, MainStep.exitCode 1 noKeysMsgs ≠ MainStep.continueToHost e st := by
  refine ⟨?_, ?_, ?_, ?_, ?_⟩
  · rw [check_api_keys, Bool.or_eq_true, pyTruthy_iff, pyTruthy_iff]
  · intro h
    rw [mainKeysStep]
    simp [h]
  · simp [noKeysMsgs]
  · simp [noKeysMsgs]
  · intro e st
    simp

/-- Witness for `check_api_keys_fatal`: with both variables unset and the
repository's sentinel placeholders, the check is false and the credential
step exits with code 1. -/
theorem check_api_keys_fatal_witness :
    check_api_keys
        (inject_api_keys ⟨none, none⟩ anthropicEmbedded openaiEmbedded).1
        anthropicEmbedded openaiEmbedded = false
      ∧ mainKeysStep ⟨none, none⟩ anthropicEmbedded openaiEmbedded
          = .exitCode 1 noKeysMsgs := by
  have h : check_api_keys
      (inject_api_keys ⟨none, none⟩ anthropicEmbedded openaiEmbedded).1
      anthropicEmbedded openaiEmbedded = false := by decide
  exact ⟨h,
    (check_api_keys_fatal ⟨none, none⟩ anthropicEmbedded openaiEmbedded).2.1 h⟩

/-! ## C8: a pre-set provider variable and the injection status -/

/-- C8 counterexample: with `ANTHROPIC_API_KEY` already set (to the empty
string) before `inject()` runs and an embedded anthropic placeholder that
decodes to `"k"`, the variable is overwritten and the status reports the
provider as injected, not as available-but-not-injected; and even with the
repository's shipped sentinel placeholders, the status reports the
set-but-empty variable's provider as unavailable. The source tests the
pre-set variable with Python truthiness, so a set-but-empty variable is
treated as absent. -/
theorem c8_counterexample :
    (inject_api_keys ⟨some "", none⟩ "aw==" openaiEmbedded).1.anthropic = some "k"
      ∧ (inject_api_keys ⟨some "", none⟩ "aw==" openaiEmbedded).2.anthropic_injected = true
      ∧ some "k" ≠ some ""
      ∧ (inject_api_keys ⟨some "", none⟩ anthropicEmbedded
          openaiEmbedded).2.anthropic_available = false := by
  refine ⟨by decide, by decide, by simp, by decide⟩

/-- C8 (amended): for each provider whose environment variable is set to a
non-empty value before `inject()` runs, the variable is left unchanged and
the status record reports the provider as available but not injected; a
variable set to the empty string is instead treated as absent and may be
overwritten by a decodable embedded secret. -/
theorem inject_preserves_nonempty_env (env : KeyEnv) (embA embO : String) :
    (∀ v, env.anthropic = some v → v ≠ "" →
      (inject_api_keys env embA embO).1.anthropic = some v
        ∧ (inject_api_keys env embA embO).2.anthropic_available = true
        ∧ (inject_api_keys env embA embO).2.anthropic_injected = false)
    ∧ (∀ v, env.openai = some v → v ≠ "" →
      (inject_api_keys env embA embO).1.openai = some v
        ∧ (inject_api_keys env embA embO).2.openai_available = true
        ∧ (inject_api_keys env embA embO).2.openai_injected = false) := by
  constructor
  · intro v hv hne
    simp [inject_api_keys, injectOne, hv, pyTruthy, hne]
  · intro v hv hne
    simp [inject_api_keys, injectOne, hv, pyTruthy, hne]

/-- Witness for `inject_preserves_nonempty_env` at concrete non-empty
variables and the repository's placeholders. -/
theorem inject_preserves_nonempty_env_witness :
    (inject_api_keys ⟨some "sk-a", some "sk-o"⟩ anthropicEmbedded
        openaiEmbedded).1.anthropic = some "sk-a"
      ∧ (inject_api_keys ⟨some "sk-a", some "sk-o"⟩ anthropicEmbedded
          openaiEmbedded).1.openai = some "sk-o"
      ∧ (inject_api_keys ⟨some "sk-a", some "sk-o"⟩ anthropicEmbedded
          openaiEmbedded).2.anthropic_injected = false
      ∧ (inject_api_keys ⟨some "sk-a", some "sk-o"⟩ anthropicEmbedded
          openaiEmbedded).2.openai_injected = false := by
  have h := inject_preserves_nonempty_env ⟨some "sk-a", some "sk-o"⟩
    anthropicEmbedded openaiEmbedded
  have ha := h.1 "sk-a" rfl (by decide)
  have ho := h.2 "sk-o" rfl (by decide)
  exact ⟨ha.1, ho.1, ha.2.2, ho.2.2⟩

/-! ## C5: development mode bypasses verification -/

/-- C5 counterexample: with `RUNANYWHERE_DEV_MODE=1`, `verify_email` on the
empty email string returns `False`, not `True` — the blank-email check
precedes the development-mode short-circuit. -/
theorem c5_counterexample :
    (verify_email (some "1") NetOutcome.timeout "").result = false := by
  decide

/-- C5 (amended): for every email that is non-blank after stripping, with
the development-mode flag set to `"1"`, verification succeeds without
issuing any network request, and the bypass is logged. -/
theorem dev_mode_bypasses (email : String) (net : NetOutcome)
    (h : pyStrip email ≠ "") :
    verify_email (some "1") net email
      = { result := true, messages := ["[DEV MODE] Skipping email verification"],
          queried := none } := by
  rw [verify_email]
  simp [h]

/-- Witness for `dev_mode_bypasses` at a concrete email and a timeout
outcome. -/
theorem dev_mode_bypasses_witness :
    pyStrip "user@example.com" ≠ ""
      ∧ verify_email (some "1") NetOutcome.timeout "user@example.com"
          = { result := true,
              messages := ["[DEV MODE] Skipping email verification"],
              queried := none } :=
  ⟨by decide, dev_mode_bypasses "user@example.com" NetOutcome.timeout (by decide)⟩

/-! ## C1: network failures resolve to Denied with distinct diagnostics -/

/-- The first `n` characters of `A ++ x` are those of `A`, when `A` is at
least that long. -/
theorem data_take_append_le (A x : String) (n : Nat) (h : n ≤ A.data.length) :
    (A ++ x).data.take n = A.data.take n := by
  rw [String.data_append]
  exact List.take_append_of_le_length h

/-- C1: for every non-blank email, with development mode off, each of the
four remote-check failure categories — timeout, connection failure, non-200
status, and a 200 response whose body is not valid JSON — makes
`verify_email` return `False` (the gate resolves to `Denied`), printing a
diagnostic specific to the category: the four categories' printed output is
pairwise distinct. Totality of the embedded `verify_email` over every
`NetOutcome` is the no-unhandled-exception guarantee: every handler
returns. -/
theorem network_failures_fail_closed (email : String) (devMode : Option String)
    (hne : pyStrip email ≠ "") (hdev : devMode ≠ some "1") :
    verify_email devMode .timeout email
      = { result := false,
          messages := ["Warning: Authentication server timeout. Please try again."],
          queried := some (pyLower (pyStrip email)) }
    ∧ verify_email devMode .connError email
      = { result := false,
          messages := ["Warning: Could not connect to authentication server.",
                       "Please check your internet connection."],
          queried := some (pyLower (pyStrip email)) }
    ∧ (∀ s b, s ≠ 200 → verify_email devMode (.resp s b) email
      = { result := false,
          messages := ["Warning: Auth check failed with status " ++ toString s],
          queried := some (pyLower (pyStrip email)) })
    ∧ (∀ m, verify_email devMode (.resp 200 (.malformed m)) email
      = { result := false,
          messages := ["Warning: Authentication error: " ++ m],
          queried := some (pyLower (pyStrip email)) })
    ∧ (∀ (s : Nat) (m : String),
        ["Warning: Authentication server timeout. Please try again."]
          ≠ ["Warning: Could not connect to authentication server.",
             "Please check your internet connection."]
        ∧ ["Warning: Authentication server timeout. Please try again."]
          ≠ ["Warning: Auth check failed with status " ++ toString s]
        ∧ ["Warning: Authentication server timeout. Please try again."]
          ≠ ["Warning: Authentication error: " ++ m]
        ∧ ["Warning: Could not connect to authentication server.",
           "Please check your internet connection."]
          ≠ ["Warning: Auth check failed with status " ++ toString s]
        ∧ ["Warning: Could not connect to authentication server.",
           "Please check your internet connection."]
          ≠ ["Warning: Authentication error: " ++ m]
        ∧ ["Warning: Auth check failed with status " ++ toString s]
          ≠ ["Warning: Authentication error: " ++ m]) := by
  refine ⟨?_, ?_, ?_, ?_, ?_⟩
  · rw [verify_email]; simp [hne, hdev]
  · rw [verify_email]; simp [hne, hdev]
  · intro s b hs
    rw [verify_email]
    simp [hne, hdev, hs]
  · intro m
    rw [verify_email]
    simp [hne, hdev]
  · intro s m
    refine ⟨by simp, ?_, ?_, by simp, by simp, ?_⟩
    · simp only [ne_eq, List.cons.injEq, and_true, not_and]
      intro h
      revert h
      apply string_ne_of_take _ _ 39
      rw [data_take_append_le _ _ 39 (by decide)]
      decide
    · simp only [ne_eq, List.cons.injEq, and_true, not_and]
      intro h
      revert h
      apply string_ne_of_take _ _ 31
      rw [data_take_append_le _ _ 31 (by decide)]
      decide
    · simp only [ne_eq, List.cons.injEq, and_true, not_and]
      intro h
      revert h
      apply string_ne_of_take _ _ 31
      rw [data_take_append_le _ _ 31 (by decide),
          data_take_append_le _ _ 31 (by decide)]
      decide

/-- Witness for `network_failures_fail_closed` at a concrete email, with a
timeout, a 500 status, and a malformed 200 body. -/
theorem network_failures_fail_closed_witness :
    (verify_email none NetOutcome.timeout "user@example.com").result = false
      ∧ (verify_email none (NetOutcome.resp 500 (RespBody.jsonArr 0))
          "user@example.com").result = false
      ∧ (verify_email none (NetOutcome.resp 200 (RespBody.malformed "boom"))
          "user@example.com").result = false
      ∧ (verify_email none (NetOutcome.resp 500 (RespBody.jsonArr 0))
            "user@example.com").messages
        ≠ (verify_email none (NetOutcome.resp 200 (RespBody.malformed "boom"))
            "user@example.com").messages := by
  have h := network_failures_fail_closed "user@example.com" none
    (by decide) (by simp)
  refine ⟨?_, ?_, ?_, ?_⟩
  · rw [h.1]
  · rw [h.2.2.1 500 (RespBody.jsonArr 0) (by decide)]
  · rw [h.2.2.2.1 "boom"]
  · rw [h.2.2.1 500 (RespBody.jsonArr 0) (by decide), h.2.2.2.1 "boom"]
    exact (h.2.2.2.2 500 "boom").2.2.2.2.2

/-! ## C10: a blank email is rejected before the dev-mode short-circuit -/

/-- C10: for every email that is empty or whitespace-only, `verify_email`
returns `False` with no network request and no output, for every value of
the development-mode flag (in particular `"1"`) and every network
outcome. -/
theorem blank_email_rejected (email : String) (devMode : Option String)
    (net : NetOutcome) (h : pyStrip email = "") :
    verify_email devMode net email
      = { result := false, messages := [], queried := none } := by
  rw [verify_email]
  simp [h]

/-- Witness for `blank_email_rejected` at a whitespace-only email with the
development-mode flag set. -/
theorem blank_email_rejected_witness :
    pyStrip "  " = ""
      ∧ verify_email (some "1") NetOutcome.timeout "  "
          = { result := false, messages := [], queried := none } :=
  ⟨by decide, blank_email_rejected "  " (some "1") NetOutcome.timeout (by decide)⟩

/-! ## C2: what a successful verification writes to the cache -/

/-- Every email the entry loop accepts is already stripped. -/
theorem emailLoop_strips :
    ∀ (is : List String) (e : String), emailLoop is = some e → pyStrip e = e := by
  intro is
  induction is with
  | nil => intro e h; simp [emailLoop] at h
  | cons i rest ih =>
    intro e h
    rw [emailLoop] at h
    by_cases h1 : pyStrip i = ""
    · rw [if_pos h1] at h
      exact ih e h
    · rw [if_neg h1] at h
      by_cases h2 : ¬ ((pyStrip i).data.contains '@') = true
          ∨ ¬ ((pyStrip i).data.contains '.') = true
      · rw [if_pos h2] at h
        exact ih e h
      · rw [if_neg h2] at h
        cases h
        exact pyStrip_idem i

/-- Every email `prompt_for_email` returns is already stripped. -/
theorem prompt_for_email_strips (w : AuthWorld) (e : String)
    (h : prompt_for_email w = some e) : pyStrip e = e := by
  have hafter : ∀ e, promptAfterCache w = some e → pyStrip e = e := by
    intro e h
    rw [promptAfterCache] at h
    cases henv : w.envEmail with
    | none => rw [henv] at h; exact emailLoop_strips w.inputs e h
    | some v =>
      rw [henv] at h
      simp only at h
      by_cases hv : v ≠ ""
      · rw [if_pos hv] at h
        cases h
        exact pyStrip_idem v
      · rw [if_neg hv] at h
        exact emailLoop_strips w.inputs e h
  rw [prompt_for_email] at h
  cases hcache : w.cache with
  | none =>
    rw [hcache] at h
    simp only [get_cached_email, Option.map_none'] at h
    exact hafter e h
  | some raw =>
    rw [hcache] at h
    simp only [get_cached_email, Option.map_some'] at h
    have hcs : pyStrip (pyStrip raw) = pyStrip raw := pyStrip_idem raw
    by_cases h1 : pyStrip raw ≠ ""
    · rw [if_pos h1] at h
      by_cases h2 : pyLower (pyStrip w.confirmInput) ≠ "new"
      · rw [if_pos h2] at h
        cases h
        exact hcs
      · rw [if_neg h2] at h
        exact hafter e h
    · rw [if_neg h1] at h
      exact hafter e h

/-- A verification that returned `True` was given a non-blank email. -/
theorem verify_true_nonblank (d : Option String) (n : NetOutcome) (e : String)
    (h : (verify_email d n e).result = true) : pyStrip e ≠ "" := by
  intro heq
  rw [verify_email] at h
  simp [heq] at h

/-- C2 counterexample: the email entered as `" User@Example.Com "` is
accepted by the gate and verified successfully (one matching record), yet
the cache receives `"User@Example.Com"` — the trimmed but *not*
lower-cased form — instead of the trimmed, lower-cased
`"user@example.com"`. `verify_email` lower-cases only its local copy for
the query; `authenticate` saves the email as returned by the prompt. -/
theorem c2_counterexample :
    authenticate { cache := none, confirmInput := "", envEmail := none,
                   inputs := [" User@Example.Com "], devMode := none,
                   net := .resp 200 (.jsonArr 1) }
        = some (.granted "User@Example.Com", some "User@Example.Com")
      ∧ pyLower (pyStrip " User@Example.Com ") = "user@example.com"
      ∧ (some "User@Example.Com" : Option String) ≠ some "user@example.com" := by
  refine ⟨by decide, by decide, by decide⟩

/-- C2 (amended): whenever `authenticate` grants access, the cache file
receives exactly the email the prompt produced — the trimmed, case-
preserved form of what was entered (lower-casing is applied only to the
verification query, not to the cached string) — and a subsequent run
reads back and offers exactly that cached string as the cached identity. -/
theorem authenticate_caches_trimmed_email (w : AuthWorld) (email : String)
    (cacheAfter : Option String)
    (h : authenticate w = some (AuthResult.granted email, cacheAfter)) :
    cacheAfter = some email
      ∧ pyStrip email = email
      ∧ email ≠ ""
      ∧ get_cached_email cacheAfter = some email
      ∧ ∀ (w2 : AuthWorld), w2.cache = cacheAfter →
          pyLower (pyStrip w2.confirmInput) ≠ "new" →
          prompt_for_email w2 = some email := by
  rw [authenticate] at h
  cases hp : prompt_for_email w with
  | none => rw [hp] at h; simp at h
  | some e0 =>
    rw [hp] at h
    by_cases hv : (verify_email w.devMode w.net e0).result = true
    · rw [Option.map_some', if_pos hv, save_email_to_cache] at h
      simp only [Option.some.injEq, Prod.mk.injEq, AuthResult.granted.injEq] at h
      obtain ⟨he, hc⟩ := h
      subst he
      rw [← hc]
      have hstrip : pyStrip e0 = e0 := prompt_for_email_strips w e0 hp
      have hne : e0 ≠ "" := fun h0 =>
        verify_true_nonblank w.devMode w.net e0 hv (h0 ▸ hstrip)
      have hget : get_cached_email (some e0) = some e0 := by
        rw [get_cached_email, Option.map_some', hstrip]
      refine ⟨rfl, hstrip, hne, hget, ?_⟩
      intro w2 hw2 hconf
      rw [prompt_for_email, hw2]
      simp only [hget]
      rw [if_pos hne, if_pos hconf]
    · rw [Option.map_some', if_neg hv] at h
      simp at h

/-- Witness for `authenticate_caches_trimmed_email`: the email entered as
`" user@example.com "` and verified against one matching record is cached
as exactly `"user@example.com"`, and a subsequent run reads that string
back. -/
theorem authenticate_caches_trimmed_email_witness :
    authenticate { cache := none, confirmInput := "", envEmail := none,
                   inputs := [" user@example.com "], devMode := none,
                   net := .resp 200 (.jsonArr 1) }
        = some (.granted "user@example.com", some "user@example.com")
      ∧ pyStrip "user@example.com" = "user@example.com"
      ∧ get_cached_email (some "user@example.com") = some "user@example.com" := by
  have ha : authenticate { cache := none, confirmInput := "", envEmail := none,
                           inputs := [" user@example.com "], devMode := none,
                           net := .resp 200 (.jsonArr 1) }
      = some (.granted "user@example.com", some "user@example.com") := by decide
  have h := authenticate_caches_trimmed_email _ "user@example.com"
    (some "user@example.com") ha
  exact ⟨ha, h.2.1, h.2.2.2.1⟩

/-! ## C4: tolerance of missing prompt slots -/

/-- Full characterization of `patch_aider_prompts` on the host state:
a missing primary edit-block slot aborts the whole function (warning only);
a missing whole-file slot aborts after the edit-block patch persisted;
with both present, the fenced, unified-diff and example patches apply to
whichever of their slots exist, and the help and commit fields are never
touched. -/
theorem patch_aider_prompts_spec (pfx : String) (exs : List (String × String))
    (h : Host) :
    (h.editblockMain = none → (patch_aider_prompts pfx exs h).1 = h)
    ∧ (∀ eb, h.editblockMain = some eb → h.wholefileMain = none →
        (patch_aider_prompts pfx exs h).1
          = { h with editblockMain := some (pfx ++ eb) })
    ∧ (∀ eb wf, h.editblockMain = some eb → h.wholefileMain = some wf →
        (patch_aider_prompts pfx exs h).1
          = { h with editblockMain := some (pfx ++ eb),
                     wholefileMain := some (pfx ++ wf),
                     fencedMain := h.fencedMain.map (pfx ++ ·),
                     udiffMain := h.udiffMain.map (pfx ++ ·),
                     editblockExamples := h.editblockExamples.map (· ++ exs) }) := by
  refine ⟨?_, ?_, ?_⟩
  · intro heb
    rw [patch_aider_prompts]
    simp only [heb]
  · intro eb heb hwf
    rw [patch_aider_prompts]
    simp only [heb, hwf]
  · intro eb wf heb hwf
    rw [patch_aider_prompts]
    simp only [heb, hwf]
    cases hf : h.fencedMain <;> cases hu : h.udiffMain <;>
      cases hx : h.editblockExamples <;> simp [hf, hu, hx, Option.map]

/-- The function `patch_help_system` touches only the two help fields: it replaces them
when the help class is importable and leaves the host unchanged when it is
not. -/
theorem patch_help_system_spec (h : Host) :
    (h.helpMain = none → (patch_help_system h).1 = h)
    ∧ (h.helpMain.isSome → (patch_help_system h).1
        = { h with helpMain := some helpSystemText,
                   helpRepoContent := some helpRepoContentText }) := by
  constructor
  · intro hh
    rw [patch_help_system]
    simp only [hh]
  · intro hh
    rw [patch_help_system]
    cases hm : h.helpMain with
    | none => rw [hm] at hh; simp at hh
    | some v => simp only [hm]

/-- The function `patch_commit_prompts` only appends the conventions block to the commit
template when it is importable, silently skipping otherwise. -/
theorem patch_commit_prompts_spec (h : Host) :
    (patch_commit_prompts h).1
      = { h with commitSystem := h.commitSystem.map (· ++ commitSuffixText) } := by
  rw [patch_commit_prompts]
  cases hc : h.commitSystem with
  | none =>
    simp only [Option.map_none']
    rw [← hc]
  | some c =>
    simp only [Option.map_some']

/-- C4 counterexample: a host missing only the primary edit-block slot,
with every other slot present: `apply_all_patches` does not raise, but the
whole-file slot — present — is left unpatched (`"W"`, not `"P" ++ "W"`),
because the edit-block and whole-file patches share the outer exception
handler of `patch_aider_prompts`. -/
theorem c4_counterexample :
    (apply_all_patches "P" []
        { editblockMain := none, wholefileMain := some "W",
          fencedMain := some "F", udiffMain := some "U",
          helpMain := some "H", helpRepoContent := some "R",
          commitSystem := some "C", editblockExamples := some [] }).1.wholefileMain
      = some "W"
      ∧ (some "W" : Option String) ≠ some ("P" ++ "W") := by
  refine ⟨by decide, by decide⟩

/-- C4 (amended): applying the prompt bundle never propagates an exception
out of `apply_all_patches` (the embedded function is total over every host
shape), and missing slots degrade as follows: the help and commit patches
are applied independently of the others whenever their targets are
importable; a missing fenced or unified-diff slot (or example list) is
skipped with every other slot still patched; but a missing primary
edit-block slot skips the whole-file, fenced, unified-diff and example
patches, and a missing whole-file slot skips the fenced, unified-diff and
example patches while the already-applied edit-block patch persists. -/
theorem apply_all_patches_degrades_gracefully (pfx : String)
    (exs : List (String × String)) (h : Host) :
    ((apply_all_patches pfx exs h).1.helpMain
        = if h.helpMain.isSome then some helpSystemText else none)
    ∧ ((apply_all_patches pfx exs h).1.commitSystem
        = h.commitSystem.map (· ++ commitSuffixText))
    ∧ (h.editblockMain = none →
        (apply_all_patches pfx exs h).1.wholefileMain = h.wholefileMain
        ∧ (apply_all_patches pfx exs h).1.fencedMain = h.fencedMain
        ∧ (apply_all_patches pfx exs h).1.udiffMain = h.udiffMain
        ∧ (apply_all_patches pfx exs h).1.editblockExamples = h.editblockExamples)
    ∧ (∀ eb, h.editblockMain = some eb → h.wholefileMain = none →
        (apply_all_patches pfx exs h).1.editblockMain = some (pfx ++ eb)
        ∧ (apply_all_patches pfx exs h).1.fencedMain = h.fencedMain
        ∧ (apply_all_patches pfx exs h).1.udiffMain = h.udiffMain
        ∧ (apply_all_patches pfx exs h).1.editblockExamples = h.editblockExamples)
    ∧ (∀ eb wf, h.editblockMain = some eb → h.wholefileMain = some wf →
        (apply_all_patches pfx exs h).1.editblockMain = some (pfx ++ eb)
        ∧ (apply_all_patches pfx exs h).1.wholefileMain = some (pfx ++ wf)
        ∧ (apply_all_patches pfx exs h).1.fencedMain = h.fencedMain.map (pfx ++ ·)
        ∧ (apply_all_patches pfx exs h).1.udiffMain = h.udiffMain.map (pfx ++ ·)
        ∧ (apply_all_patches pfx exs h).1.editblockExamples
            = h.editblockExamples.map (· ++ exs)) := by
  have hpap := patch_aider_prompts_spec pfx exs h
  have hpcp := patch_commit_prompts_spec
  have happ : ∀ h0 : Host, (apply_all_patches pfx exs h0).1
      = (patch_commit_prompts (patch_help_system
          (patch_aider_prompts pfx exs h0).1).1).1 := fun h0 => rfl
  have hhelp2 : ∀ h1 : Host,
      (patch_commit_prompts (patch_help_system h1).1).1.helpMain
        = (if h1.helpMain.isSome then some helpSystemText else none)
      ∧ (patch_commit_prompts (patch_help_system h1).1).1.commitSystem
        = h1.commitSystem.map (· ++ commitSuffixText)
      ∧ (patch_commit_prompts (patch_help_system h1).1).1.editblockMain
        = h1.editblockMain
      ∧ (patch_commit_prompts (patch_help_system h1).1).1.wholefileMain
        = h1.wholefileMain
      ∧ (patch_commit_prompts (patch_help_system h1).1).1.fencedMain
        = h1.fencedMain
      ∧ (patch_commit_prompts (patch_help_system h1).1).1.udiffMain
        = h1.udiffMain
      ∧ (patch_commit_prompts (patch_help_system h1).1).1.editblockExamples
        = h1.editblockExamples := by
    intro h1
    rw [patch_commit_prompts_spec]
    cases hm : h1.helpMain with
    | none =>
      rw [(patch_help_system_spec h1).1 hm]
      simp [hm]
    | some v =>
      rw [(patch_help_system_spec h1).2 (by rw [hm]; rfl)]
      simp [hm]
  refine ⟨?_, ?_, ?_, ?_, ?_⟩
  · rw [happ, (hhelp2 _).1]
    cases heb : h.editblockMain with
    | none => rw [hpap.1 heb]
    | some eb =>
      cases hwf : h.wholefileMain with
      | none => rw [hpap.2.1 eb heb hwf]
      | some wf => rw [hpap.2.2 eb wf heb hwf]
  · rw [happ, (hhelp2 _).2.1]
    cases heb : h.editblockMain with
    | none => rw [hpap.1 heb]
    | some eb =>
      cases hwf : h.wholefileMain with
      | none => rw [hpap.2.1 eb heb hwf]
      | some wf => rw [hpap.2.2 eb wf heb hwf]
  · intro heb
    rw [happ, hpap.1 heb]
    exact ⟨(hhelp2 h).2.2.2.1, (hhelp2 h).2.2.2.2.1,
           (hhelp2 h).2.2.2.2.2.1, (hhelp2 h).2.2.2.2.2.2⟩
  · intro eb heb hwf
    rw [happ, hpap.2.1 eb heb hwf]
    refine ⟨?_, ?_, ?_, ?_⟩
    · rw [(hhelp2 _).2.2.1]
    · rw [(hhelp2 _).2.2.2.2.1]
    · rw [(hhelp2 _).2.2.2.2.2.1]
    · rw [(hhelp2 _).2.2.2.2.2.2]
  · intro eb wf heb hwf
    rw [happ, hpap.2.2 eb wf heb hwf]
    refine ⟨?_, ?_, ?_, ?_, ?_⟩
    · rw [(hhelp2 _).2.2.1]
    · rw [(hhelp2 _).2.2.2.1]
    · rw [(hhelp2 _).2.2.2.2.1]
    · rw [(hhelp2 _).2.2.2.2.2.1]
    · rw [(hhelp2 _).2.2.2.2.2.2]

/-- Witness for `apply_all_patches_degrades_gracefully`: a host missing
only the unified-diff slot keeps every present slot patched, and a host
missing the edit-block slot leaves the other edit-style slots unpatched
while the help slot is still replaced. -/
theorem apply_all_patches_degrades_gracefully_witness :
    (apply_all_patches "P" []
        { editblockMain := some "E", wholefileMain := some "W",
          fencedMain := some "F", udiffMain := none,
          helpMain := some "H", helpRepoContent := some "R",
          commitSystem := some "C", editblockExamples := none }).1.editblockMain
      = some ("P" ++ "E")
      ∧ (apply_all_patches "P" []
          { editblockMain := some "E", wholefileMain := some "W",
            fencedMain := some "F", udiffMain := none,
            helpMain := some "H", helpRepoContent := some "R",
            commitSystem := some "C", editblockExamples := none }).1.fencedMain
        = some ("P" ++ "F")
      ∧ (apply_all_patches "P" []
          { editblockMain := some "E", wholefileMain := some "W",
            fencedMain := some "F", udiffMain := none,
            helpMain := some "H", helpRepoContent := some "R",
            commitSystem := some "C", editblockExamples := none }).1.udiffMain
        = none
      ∧ (apply_all_patches "P" []
          { editblockMain := none, wholefileMain := some "W",
            fencedMain := some "F", udiffMain := some "U",
            helpMain := some "H", helpRepoContent := some "R",
            commitSystem := some "C", editblockExamples := some [] }).1.fencedMain
        = some "F"
      ∧ (apply_all_patches "P" []
          { editblockMain := none, wholefileMain := some "W",
            fencedMain := some "F", udiffMain := some "U",
            helpMain := some "H", helpRepoContent := some "R",
            commitSystem := some "C", editblockExamples := some [] }).1.helpMain
        = some helpSystemText := by
  have h1 := apply_all_patches_degrades_gracefully "P" []
    { editblockMain := some "E", wholefileMain := some "W",
      fencedMain := some "F", udiffMain := none,
      helpMain := some "H", helpRepoContent := some "R",
      commitSystem := some "C", editblockExamples := none }
  have h2 := apply_all_patches_degrades_gracefully "P" []
    { editblockMain := none, wholefileMain := some "W",
      fencedMain := some "F", udiffMain := some "U",
      helpMain := some "H", helpRepoContent := some "R",
      commitSystem := some "C", editblockExamples := some [] }
  have ha := h1.2.2.2.2 "E" "W" rfl rfl
  refine ⟨ha.1, ?_, ?_, ?_, ?_⟩
  · rw [ha.2.2.1]; rfl
  · rw [ha.2.2.2.1]; rfl
  · exact (h2.2.2.1 rfl).2.1
  · rw [h2.1]; rfl

end RunanywhereAgent
